import Mathlib

/-!
Shallow embedding of the note-taking service (FastAPI CRUD app):
the cache-aside note handlers of `src/main.py`, and the token issuance
and validation of `src/auth.py`.

Modelling conventions:
- The relational note store (`notes` table) is a partial map from ids to
  records; `database.execute` on an insert returns the fresh autoincrement
  id, modelled by a `nextId` counter; on update/delete it returns the
  affected row count, whose Python truthiness test `if not result` is
  modelled by a store lookup on the matched id.
- The Redis cache is a partial map from note ids to cached notes. The code
  stores `json.dumps` of the note dict under key `"note:{id}"` and reads it
  back with `json.loads`; since that serialization round-trips for these
  records, the cache maps the id directly to the deserialized Note value.
  A cached JSON string is never empty, so the truthiness test
  `if cached_note` is a hit exactly when the key is present.
- Each handler wraps its body in `try/except SQLAlchemyError`. A failure
  of a Redis call raises an exception that is NOT a `SQLAlchemyError`, so
  it escapes the handler. Every cache call therefore takes a Boolean
  "this call succeeds" parameter; when it is false the operation ends with
  `ApiErr.cacheExc`, the unhandled cache-client exception, and the state
  reflects exactly the mutations performed before the raise.
-/

namespace FastApiCrud

/-- Row of the `notes` table apart from its primary key: the payload a
client sends (`NoteIn` in `schemas.py`). -/
structure NoteRec where
  text : String
  completed : Bool
deriving DecidableEq, Repr

/-- Full note as returned by the API (`Note` in `schemas.py`). -/
structure Note where
  id : Nat
  text : String
  completed : Bool
deriving DecidableEq, Repr

/-- Combined state of the notes table and the Redis cache.
`nextId` is the autoincrement counter of the `id` primary key. -/
structure St where
  store : Nat → Option NoteRec
  nextId : Nat
  cache : Nat → Option Note

/-- Point update of a partial map, used for SQL inserts/updates and for
`redis.set`. -/
def fset {α : Type} (m : Nat → Option α) (k : Nat) (v : α) : Nat → Option α :=
  fun j => if j = k then some v else m j

/-- Point removal from a partial map, used for SQL deletes and for
`redis.delete`. -/
def fdel {α : Type} (m : Nat → Option α) (k : Nat) : Nat → Option α :=
  fun j => if j = k then none else m j

/-- Initial state: empty table, autoincrement starts at 1, empty cache. -/
def emptySt : St :=
  { store := fun _ => none, nextId := 1, cache := fun _ => none }

/-- Outcomes a note handler can end with, besides success:
`notFound i` is `HTTPException(404, ...)` for id `i`; `cacheExc` is an
exception raised by the Redis client that the handler does not catch
(its `except` clause matches only `SQLAlchemyError`). -/
inductive ApiErr where
  | notFound (id : Nat)
  | cacheExc
deriving DecidableEq, Repr

/-- Handler `create_note` of `src/main.py`: insert into the notes table
(the store assigns `last_record_id`), then `redis.set` the full resulting
note, and return it. `cacheSetOk` tells whether the `redis.set` call
succeeds; if not, the exception propagates after the insert took effect. -/
def create_note (cacheSetOk : Bool) (s : St) (text : String) (completed : Bool) :
    Except ApiErr Note × St :=
  let last_record_id := s.nextId
  let s1 : St :=
    { store := fset s.store last_record_id ⟨text, completed⟩,
      nextId := last_record_id + 1,
      cache := s.cache }
  if cacheSetOk then
    let note_data : Note := ⟨last_record_id, text, completed⟩
    (Except.ok note_data, { s1 with cache := fset s1.cache last_record_id note_data })
  else
    (Except.error ApiErr.cacheExc, s1)

/-- Handler `update_note` of `src/main.py`: update the row matching
`note_id`; if zero rows were affected (`if not result`) fail 404 without
touching the cache; otherwise `redis.set` the new value and return it. -/
def update_note (cacheSetOk : Bool) (s : St) (note_id : Nat)
    (text : String) (completed : Bool) : Except ApiErr Note × St :=
  match s.store note_id with
  | none => (Except.error (ApiErr.notFound note_id), s)
  | some _ =>
    let s1 : St := { s with store := fset s.store note_id ⟨text, completed⟩ }
    if cacheSetOk then
      let note_data : Note := ⟨note_id, text, completed⟩
      (Except.ok note_data, { s1 with cache := fset s1.cache note_id note_data })
    else
      (Except.error ApiErr.cacheExc, s1)

/-- Handler `read_single_note` of `src/main.py`: `redis.get` first (this
call is before the handler's `try`, so its failure propagates); on a hit
return the cached note without touching the store; on a miss fetch from
the store, fail 404 if absent, else `redis.set` the fetched row into the
cache and return it. -/
def read_single_note (cacheGetOk cacheSetOk : Bool) (s : St) (note_id : Nat) :
    Except ApiErr Note × St :=
  if cacheGetOk then
    match s.cache note_id with
    | some cached_note => (Except.ok cached_note, s)
    | none =>
      match s.store note_id with
      | none => (Except.error (ApiErr.notFound note_id), s)
      | some data =>
        if cacheSetOk then
          let n : Note := ⟨note_id, data.text, data.completed⟩
          (Except.ok n, { s with cache := fset s.cache note_id n })
        else
          (Except.error ApiErr.cacheExc, s)
  else
    (Except.error ApiErr.cacheExc, s)

/-- Handler `delete_note` of `src/main.py`: delete the row matching
`note_id`; if zero rows were affected fail 404 without touching the cache;
otherwise `redis.delete` the cache key and return a success message. -/
def delete_note (cacheDelOk : Bool) (s : St) (note_id : Nat) :
    Except ApiErr Unit × St :=
  match s.store note_id with
  | none => (Except.error (ApiErr.notFound note_id), s)
  | some _ =>
    let s1 : St := { s with store := fdel s.store note_id }
    if cacheDelOk then
      (Except.ok (), { s1 with cache := fdel s1.cache note_id })
    else
      (Except.error ApiErr.cacheExc, s1)

/-- One request against the note endpoints, for sequencing executions. -/
inductive Op where
  | create (text : String) (completed : Bool)
  | read (note_id : Nat)
  | update (note_id : Nat) (text : String) (completed : Bool)
  | delete (note_id : Nat)

/-- State transition of one fault-free request (all cache calls succeed). -/
def stepOp (s : St) (o : Op) : St :=
  match o with
  | Op.create t c => (create_note true s t c).2
  | Op.read i => (read_single_note true true s i).2
  | Op.update i t c => (update_note true s i t c).2
  | Op.delete i => (delete_note true s i).2

/-- Sequential fault-free execution of a list of requests. -/
def runOps (s : St) (ops : List Op) : St :=
  ops.foldl stepOp s

/-- Cache-store agreement: every cache entry present under key
`"note:{i}"` deserializes to a note carrying id `i` whose payload equals
the store's current record for `i`. -/
def cacheAgree (s : St) : Prop :=
  ∀ i n, s.cache i = some n → n.id = i ∧ s.store i = some ⟨n.text, n.completed⟩

/-!
Token service (`src/auth.py`) and login (`src/main.py`).

- A JWT is modelled as its decoded claim set plus an HMAC-SHA256
  signature. The signature is modelled abstractly as the pair
  (key, claims) it was computed over; verification compares that pair with
  the presenting key and the token's own claims, which is faithful because
  HMAC verification succeeds exactly on the original key/message pair
  (collisions are outside the model). A byte string that is not a valid
  JWT at all is `Token.malformed`.
- Times are integer Unix timestamps in seconds; `timedelta` values are
  second counts. python-jose validates the registered `exp` claim only if
  it is present and rejects the token exactly when `exp < now`.
- `os.environ.get` returns an `Option String`; when the variable is set
  Python receives a `str`, when unset the supplied default keeps its own
  type. `PyVal` captures that dynamic typing, and `timedelta(minutes=v)`
  raises `TypeError` when `v` is a string.
-/

/-- Decoded JWT claim set: optional registered claims `sub` and `exp`,
plus any other claims as a key-value list. -/
structure Claims where
  sub : Option String
  exp : Option Int
  extra : List (String × String)
deriving DecidableEq, Repr

/-- A token as presented to the service: either a structurally valid JWT
carrying its claims and a signature (recorded as the key and claims the
signature was computed over), or a malformed byte string. -/
inductive Token where
  | signed (payload : Claims) (sigKey : String) (sigPayload : Claims)
  | malformed (raw : String)
deriving DecidableEq, Repr

/-- The library call `jwt.encode(to_encode, key, algorithm="HS256")`:
sign the payload with the key. -/
def jwtEncode (key : String) (payload : Claims) : Token :=
  Token.signed payload key payload

/-- The library call `jwt.decode(token, key, algorithms=["HS256"])`:
`none` models a raised `JWTError` (malformed encoding, signature that does
not verify, or an `exp` claim in the past); otherwise the whole decoded
payload is returned. `exp` is checked only when present. -/
def jwtDecode (key : String) (now : Int) (t : Token) : Option Claims :=
  match t with
  | Token.malformed _ => none
  | Token.signed payload k p =>
    if k = key ∧ p = payload then
      match payload.exp with
      | some e => if e < now then none else some payload
      | none => some payload
    else none

/-- Authorization failure raised by `decode_access_token`:
`HTTPException(401, "Invalid or expired token")`. -/
inductive AuthErr where
  | invalidToken
deriving DecidableEq, Repr

/-- Function `create_access_token` of `src/auth.py`: copy the given data,
set claim `exp` to now plus `expires_delta` (or 15 minutes when none is
given), and sign with the secret key. -/
def create_access_token (key : String) (now : Int) (data : Claims)
    (expires_delta : Option Int) : Token :=
  jwtEncode key { data with exp := some (now + expires_delta.getD (15 * 60)) }

/-- Function `decode_access_token` of `src/auth.py`: `jwt.decode` and
return the whole payload; any `JWTError` becomes the 401 response. -/
def decode_access_token (key : String) (now : Int) (t : Token) :
    Except AuthErr Claims :=
  match jwtDecode key now t with
  | some payload => Except.ok payload
  | none => Except.error AuthErr.invalidToken

/-- A Python value that is either an `int` or a `str`, as produced by
`os.environ.get` with a non-string default. -/
inductive PyVal where
  | intVal (n : Int)
  | strVal (s : String)
deriving DecidableEq, Repr

/-- Python `TypeError`, raised by `timedelta` on a non-numeric argument. -/
inductive PyErr where
  | typeError
deriving DecidableEq, Repr

/-- Module-level constant of `src/auth.py`:
`os.environ.get('access_token_expire_minute', 30)`. When the environment
variable is set its value is a string; otherwise the default is the
integer 30. -/
def ACCESS_TOKEN_EXPIRE_MINUTES (env : Option String) : PyVal :=
  match env with
  | some s => PyVal.strVal s
  | none => PyVal.intVal 30

/-- The constructor call `timedelta(minutes=v)`, returning the duration in
seconds; a string argument raises `TypeError`. -/
def timedelta_minutes : PyVal → Except PyErr Int
  | PyVal.intVal n => Except.ok (n * 60)
  | PyVal.strVal _ => Except.error PyErr.typeError

/-- The error body of an `HTTPException` raised by the login handler. -/
structure LoginErr where
  status_code : Nat
  detail : String
deriving DecidableEq, Repr

/-- Successful login response `{access_token, token_type}`. -/
structure TokenResponse where
  access_token : Token
  token_type : String
deriving DecidableEq, Repr

/-- Handler `login` of `src/main.py`. `db` is the `users` table as a map
from username to stored `hashed_password`; `verify` is
`auth.verify_password` (bcrypt, treated as a black box); `key` is the
configured secret; `env` is the raw `access_token_expire_minute`
environment variable. Unknown user and wrong password both raise
`HTTPException(400, "Incorrect username or password")`; on success a token
for the user is issued with the configured expiry. A `TypeError` from
`timedelta` propagates unhandled (`Sum.inr`). -/
def login (db : String → Option String) (verify : String → String → Bool)
    (key : String) (env : Option String) (now : Int)
    (username password : String) : Except (LoginErr ⊕ PyErr) TokenResponse :=
  match db username with
  | none => Except.error (Sum.inl ⟨400, "Incorrect username or password"⟩)
  | some hashed =>
    if verify password hashed then
      match timedelta_minutes (ACCESS_TOKEN_EXPIRE_MINUTES env) with
      | Except.error e => Except.error (Sum.inr e)
      | Except.ok secs =>
        Except.ok
          ⟨create_access_token key now ⟨some username, none, []⟩ (some secs),
           "bearer"⟩
    else Except.error (Sum.inl ⟨400, "Incorrect username or password"⟩)

/-- Applying `fset` is a pointwise conditional. -/
theorem fset_apply {α : Type} (m : Nat → Option α) (k j : Nat) (v : α) :
    fset m k v j = if j = k then some v else m j := rfl

/-- Applying `fdel` is a pointwise conditional. -/
theorem fdel_apply {α : Type} (m : Nat → Option α) (k j : Nat) :
    fdel m k j = if j = k then none else m j := rfl

/-- Characterization of a fault-free create: the row is inserted at the
fresh id, the counter advances, the cache is filled with the full note,
and that note is returned. -/
theorem create_note_eq (s : St) (t : String) (c : Bool) :
    create_note true s t c =
      (Except.ok ⟨s.nextId, t, c⟩,
       { store := fset s.store s.nextId ⟨t, c⟩,
         nextId := s.nextId + 1,
         cache := fset s.cache s.nextId ⟨s.nextId, t, c⟩ }) := rfl

/-- Characterization of a create whose `redis.set` raises: the insert has
taken effect, the cache is untouched, and the exception propagates. -/
theorem create_note_cacheFail_eq (s : St) (t : String) (c : Bool) :
    create_note false s t c =
      (Except.error ApiErr.cacheExc,
       { store := fset s.store s.nextId ⟨t, c⟩,
         nextId := s.nextId + 1,
         cache := s.cache }) := rfl

/-- Characterization of a read that hits the cache: the cached note is
returned and the state is untouched. -/
theorem read_hit_eq (s : St) (i : Nat) (n : Note) (h : s.cache i = some n) :
    read_single_note true true s i = (Except.ok n, s) := by
  unfold read_single_note
  rw [h]
  rfl

/-- Characterization of a read that misses the cache and finds the row in
the store: the row is returned and written through into the cache. -/
theorem read_fill_eq (s : St) (i : Nat) (r : NoteRec)
    (hc : s.cache i = none) (hs : s.store i = some r) :
    read_single_note true true s i =
      (Except.ok ⟨i, r.text, r.completed⟩,
       { s with cache := fset s.cache i ⟨i, r.text, r.completed⟩ }) := by
  unfold read_single_note
  rw [hc, hs]
  rfl

/-- Characterization of a read of an id absent from cache and store:
404 and no state change. -/
theorem read_miss_eq (s : St) (i : Nat)
    (hc : s.cache i = none) (hs : s.store i = none) :
    read_single_note true true s i = (Except.error (ApiErr.notFound i), s) := by
  unfold read_single_note
  rw [hc, hs]
  rfl

/-- Characterization of a fault-free update of an existing row: the row is
overwritten, the cache entry is overwritten with the same value, and the
new note is returned. -/
theorem update_note_eq (s : St) (i : Nat) (t : String) (c : Bool) (r : NoteRec)
    (hs : s.store i = some r) :
    update_note true s i t c =
      (Except.ok ⟨i, t, c⟩,
       { s with store := fset s.store i ⟨t, c⟩,
                cache := fset s.cache i ⟨i, t, c⟩ }) := by
  unfold update_note
  rw [hs]
  rfl

/-- Characterization of an update matching zero rows: 404 and the state,
cache included, is untouched. -/
theorem update_note_missing_eq (s : St) (i : Nat) (t : String) (c : Bool)
    (hs : s.store i = none) :
    update_note true s i t c = (Except.error (ApiErr.notFound i), s) := by
  unfold update_note
  rw [hs]

/-- Characterization of an update whose `redis.set` raises: the store row
is overwritten, the cache is untouched, and the exception propagates. -/
theorem update_note_cacheFail_eq (s : St) (i : Nat) (t : String) (c : Bool)
    (r : NoteRec) (hs : s.store i = some r) :
    update_note false s i t c =
      (Except.error ApiErr.cacheExc,
       { s with store := fset s.store i ⟨t, c⟩ }) := by
  unfold update_note
  rw [hs]
  rfl

/-- Characterization of a fault-free delete of an existing row: the row is
removed, the cache entry is removed, success is returned. -/
theorem delete_note_eq (s : St) (i : Nat) (r : NoteRec) (hs : s.store i = some r) :
    delete_note true s i =
      (Except.ok (),
       { s with store := fdel s.store i, cache := fdel s.cache i }) := by
  unfold delete_note
  rw [hs]
  rfl

/-- Characterization of a delete matching zero rows: 404 and the state,
cache included, is untouched. -/
theorem delete_note_missing_eq (s : St) (i : Nat) (hs : s.store i = none) :
    delete_note true s i = (Except.error (ApiErr.notFound i), s) := by
  unfold delete_note
  rw [hs]

/-- Characterization of a delete whose `redis.delete` raises: the row is
removed from the store, the cache is untouched, the exception propagates. -/
theorem delete_note_cacheFail_eq (s : St) (i : Nat) (r : NoteRec)
    (hs : s.store i = some r) :
    delete_note false s i =
      (Except.error ApiErr.cacheExc, { s with store := fdel s.store i }) := by
  unfold delete_note
  rw [hs]
  rfl

/-- A fault-free create preserves cache-store agreement. -/
theorem agree_create (s : St) (t : String) (c : Bool) (h : cacheAgree s) :
    cacheAgree (create_note true s t c).2 := by
  intro i n hn
  have hn' : fset s.cache s.nextId ⟨s.nextId, t, c⟩ i = some n := hn
  rw [fset_apply] at hn'
  show n.id = i ∧ fset s.store s.nextId ⟨t, c⟩ i = some ⟨n.text, n.completed⟩
  rw [fset_apply]
  by_cases hi : i = s.nextId
  · subst hi
    rw [if_pos rfl] at hn' ⊢
    injection hn' with hn''
    subst hn''
    exact ⟨rfl, rfl⟩
  · rw [if_neg hi] at hn' ⊢
    exact h i n hn'

/-- A fault-free single-note read preserves cache-store agreement. -/
theorem agree_read (s : St) (i0 : Nat) (h : cacheAgree s) :
    cacheAgree (read_single_note true true s i0).2 := by
  cases hcache : s.cache i0 with
  | some m =>
    rw [read_hit_eq s i0 m hcache]
    exact h
  | none =>
    cases hstore : s.store i0 with
    | none =>
      rw [read_miss_eq s i0 hcache hstore]
      exact h
    | some data =>
      rw [read_fill_eq s i0 data hcache hstore]
      intro i n hn
      have hn' : fset s.cache i0 ⟨i0, data.text, data.completed⟩ i = some n := hn
      rw [fset_apply] at hn'
      show n.id = i ∧ s.store i = some ⟨n.text, n.completed⟩
      by_cases hi : i = i0
      · subst hi
        rw [if_pos rfl] at hn'
        injection hn' with hn''
        subst hn''
        exact ⟨rfl, hstore⟩
      · rw [if_neg hi] at hn'
        exact h i n hn'

/-- A fault-free update preserves cache-store agreement. -/
theorem agree_update (s : St) (i0 : Nat) (t : String) (c : Bool)
    (h : cacheAgree s) : cacheAgree (update_note true s i0 t c).2 := by
  cases hstore : s.store i0 with
  | none =>
    rw [update_note_missing_eq s i0 t c hstore]
    exact h
  | some old =>
    rw [update_note_eq s i0 t c old hstore]
    intro i n hn
    have hn' : fset s.cache i0 ⟨i0, t, c⟩ i = some n := hn
    rw [fset_apply] at hn'
    show n.id = i ∧ fset s.store i0 ⟨t, c⟩ i = some ⟨n.text, n.completed⟩
    rw [fset_apply]
    by_cases hi : i = i0
    · subst hi
      rw [if_pos rfl] at hn' ⊢
      injection hn' with hn''
      subst hn''
      exact ⟨rfl, rfl⟩
    · rw [if_neg hi] at hn' ⊢
      exact h i n hn'

/-- A fault-free delete preserves cache-store agreement. -/
theorem agree_delete (s : St) (i0 : Nat) (h : cacheAgree s) :
    cacheAgree (delete_note true s i0).2 := by
  cases hstore : s.store i0 with
  | none =>
    rw [delete_note_missing_eq s i0 hstore]
    exact h
  | some old =>
    rw [delete_note_eq s i0 old hstore]
    intro i n hn
    have hn' : fdel s.cache i0 i = some n := hn
    rw [fdel_apply] at hn'
    show n.id = i ∧ fdel s.store i0 i = some ⟨n.text, n.completed⟩
    rw [fdel_apply]
    by_cases hi : i = i0
    · rw [if_pos hi] at hn'
      exact Option.noConfusion hn'
    · rw [if_neg hi] at hn' ⊢
      exact h i n hn'

/-- Every single fault-free note operation preserves agreement. -/
theorem agree_step (s : St) (o : Op) (h : cacheAgree s) :
    cacheAgree (stepOp s o) := by
  cases o with
  | create t c => exact agree_create s t c h
  | read i => exact agree_read s i h
  | update i t c => exact agree_update s i t c h
  | delete i => exact agree_delete s i h

/-- Agreement is preserved along any sequential fault-free execution. -/
theorem agree_runOps (ops : List Op) :
    ∀ s : St, cacheAgree s → cacheAgree (runOps s ops) := by
  induction ops with
  | nil => exact fun _ h => h
  | cons o rest ih => exact fun s h => ih (stepOp s o) (agree_step s o h)

/-- C1: in every sequential execution of the note operations, whenever a
cache entry under key `"note:{id}"` is present after an operation
completes, its deserialized value equals the note store's current record
for that id: every single operation, and hence every sequence of
operations, preserves the cache-store agreement invariant. -/
theorem cache_store_agreement (s : St) (o : Op) (ops : List Op)
    (h : cacheAgree s) :
    cacheAgree (stepOp s o) ∧ cacheAgree (runOps s ops) :=
  ⟨agree_step s o h, agree_runOps ops s h⟩

/-- Witness for the cache-store agreement theorem at a concrete run
starting from the empty state. -/
theorem cache_store_agreement_witness :
    cacheAgree emptySt ∧
    (cacheAgree (stepOp emptySt (Op.create "a" true)) ∧
     cacheAgree (runOps emptySt
       [Op.create "a" true, Op.read 1, Op.update 1 "b" false, Op.delete 1])) := by
  have h0 : cacheAgree emptySt := fun i n hn => Option.noConfusion hn
  exact ⟨h0, cache_store_agreement emptySt (Op.create "a" true)
    [Op.create "a" true, Op.read 1, Op.update 1 "b" false, Op.delete 1] h0⟩

/-- C2 counterexample: starting from the empty state with a failing
`redis.set`, the create's store insert succeeds (row 1 is present in the
final state) yet the operation does not return its success result: the
cache exception surfaces to the caller. -/
theorem cache_error_not_isolated_cex :
    (create_note false emptySt "hello" false).2.store 1 =
      some ⟨"hello", false⟩ ∧
    (create_note false emptySt "hello" false).1 = Except.error ApiErr.cacheExc :=
  ⟨rfl, rfl⟩

/-- C2 amended: when the store operation succeeds but the following cache
call fails, the handlers catch only `SQLAlchemyError`, so the cache
client's exception propagates and the operation fails, even though the
store mutation has taken effect; a failing `redis.get` likewise aborts a
read before the store is consulted. -/
theorem cache_failure_aborts_operation (s : St) (t : String) (c : Bool)
    (i : Nat) (r : NoteRec) (hs : s.store i = some r) :
    ((create_note false s t c).1 = Except.error ApiErr.cacheExc ∧
      (create_note false s t c).2.store s.nextId = some ⟨t, c⟩) ∧
    ((update_note false s i t c).1 = Except.error ApiErr.cacheExc ∧
      (update_note false s i t c).2.store i = some ⟨t, c⟩) ∧
    ((delete_note false s i).1 = Except.error ApiErr.cacheExc ∧
      (delete_note false s i).2.store i = none) ∧
    (read_single_note false true s i).1 = Except.error ApiErr.cacheExc := by
  refine ⟨⟨rfl, ?_⟩, ?_, ?_, rfl⟩
  · show fset s.store s.nextId ⟨t, c⟩ s.nextId = some ⟨t, c⟩
    rw [fset_apply, if_pos rfl]
  · rw [update_note_cacheFail_eq s i t c r hs]
    refine ⟨rfl, ?_⟩
    show fset s.store i ⟨t, c⟩ i = some ⟨t, c⟩
    rw [fset_apply, if_pos rfl]
  · rw [delete_note_cacheFail_eq s i r hs]
    refine ⟨rfl, ?_⟩
    show fdel s.store i i = none
    rw [fdel_apply, if_pos rfl]

/-- Concrete state holding exactly note 1 = ("a", true), nothing cached. -/
def oneNoteSt : St :=
  { store := fset (fun _ => none) 1 ⟨"a", true⟩,
    nextId := 2,
    cache := fun _ => none }

/-- Witness for the amended cache-failure theorem on the one-note state. -/
theorem cache_failure_aborts_operation_witness :
    oneNoteSt.store 1 = some ⟨"a", true⟩ ∧
    (((create_note false oneNoteSt "x" false).1 =
        Except.error ApiErr.cacheExc ∧
      (create_note false oneNoteSt "x" false).2.store oneNoteSt.nextId =
        some ⟨"x", false⟩) ∧
     ((update_note false oneNoteSt 1 "x" false).1 =
        Except.error ApiErr.cacheExc ∧
      (update_note false oneNoteSt 1 "x" false).2.store 1 =
        some ⟨"x", false⟩) ∧
     ((delete_note false oneNoteSt 1).1 = Except.error ApiErr.cacheExc ∧
      (delete_note false oneNoteSt 1).2.store 1 = none) ∧
     (read_single_note false true oneNoteSt 1).1 =
        Except.error ApiErr.cacheExc) :=
  ⟨rfl, cache_failure_aborts_operation oneNoteSt "x" false 1 ⟨"a", true⟩ rfl⟩

/-- C3: create followed by an immediate read of the returned id yields
exactly the created note, served from the cache: the read's result and
final state are those of a cache hit and do not depend on the store
contents at all (no store read is performed). -/
theorem create_then_read (s : St) (t : String) (c : Bool) :
    (create_note true s t c).1 = Except.ok ⟨s.nextId, t, c⟩ ∧
    ∀ otherStore : Nat → Option NoteRec,
      read_single_note true true
          { (create_note true s t c).2 with store := otherStore } s.nextId =
        (Except.ok ⟨s.nextId, t, c⟩,
         { (create_note true s t c).2 with store := otherStore }) := by
  refine ⟨rfl, fun otherStore => ?_⟩
  have hcached :
      ({ (create_note true s t c).2 with store := otherStore } : St).cache
        s.nextId = some ⟨s.nextId, t, c⟩ := by
    show fset s.cache s.nextId ⟨s.nextId, t, c⟩ s.nextId = _
    rw [fset_apply, if_pos rfl]
  exact read_hit_eq _ s.nextId ⟨s.nextId, t, c⟩ hcached

/-- C4: update and delete of an id absent from the store fail 404 and
leave the whole state, the cache included, unchanged; delete repeated on
an already-deleted id therefore fails 404 on every repetition without
crashing on the missing cache key. -/
theorem missing_id_fails_cache_untouched (s : St) (i : Nat) (t : String)
    (c : Bool) (hs : s.store i = none) :
    update_note true s i t c = (Except.error (ApiErr.notFound i), s) ∧
    delete_note true s i = (Except.error (ApiErr.notFound i), s) ∧
    delete_note true (delete_note true s i).2 i =
      (Except.error (ApiErr.notFound i), s) := by
  have hd := delete_note_missing_eq s i hs
  refine ⟨update_note_missing_eq s i t c hs, hd, ?_⟩
  rw [hd]
  exact hd

/-- Witness for the missing-id theorem at id 7 of the empty state. -/
theorem missing_id_fails_cache_untouched_witness :
    emptySt.store 7 = none ∧
    (update_note true emptySt 7 "x" true =
        (Except.error (ApiErr.notFound 7), emptySt) ∧
     delete_note true emptySt 7 =
        (Except.error (ApiErr.notFound 7), emptySt) ∧
     delete_note true (delete_note true emptySt 7).2 7 =
        (Except.error (ApiErr.notFound 7), emptySt)) :=
  ⟨rfl, missing_id_fails_cache_untouched emptySt 7 "x" true rfl⟩

/-- C5: a delete of an existing id succeeds, afterwards the cache key for
that id is absent, and an immediately following read fails 404. -/
theorem delete_then_read (s : St) (i : Nat) (r : NoteRec)
    (hs : s.store i = some r) :
    (delete_note true s i).1 = Except.ok () ∧
    (delete_note true s i).2.cache i = none ∧
    read_single_note true true (delete_note true s i).2 i =
      (Except.error (ApiErr.notFound i), (delete_note true s i).2) := by
  rw [delete_note_eq s i r hs]
  have hc : fdel s.cache i i = none := by rw [fdel_apply, if_pos rfl]
  have hst : fdel s.store i i = none := by rw [fdel_apply, if_pos rfl]
  exact ⟨rfl, hc, read_miss_eq _ i hc hst⟩

/-- Witness for the delete-then-read theorem on the one-note state. -/
theorem delete_then_read_witness :
    oneNoteSt.store 1 = some ⟨"a", true⟩ ∧
    ((delete_note true oneNoteSt 1).1 = Except.ok () ∧
     (delete_note true oneNoteSt 1).2.cache 1 = none ∧
     read_single_note true true (delete_note true oneNoteSt 1).2 1 =
       (Except.error (ApiErr.notFound 1), (delete_note true oneNoteSt 1).2)) :=
  ⟨rfl, delete_then_read oneNoteSt 1 ⟨"a", true⟩ rfl⟩

/-- C6: a successful update followed by a read of the same id returns the
updated note, both when the cache entry written by the update is still
present (cache hit) and in the execution where that entry was evicted
between the two calls (the read falls through to the store, which
reflects the update). -/
theorem update_then_read (s : St) (i : Nat) (r : NoteRec) (t : String)
    (c : Bool) (hs : s.store i = some r) :
    (update_note true s i t c).1 = Except.ok ⟨i, t, c⟩ ∧
    (read_single_note true true (update_note true s i t c).2 i).1 =
      Except.ok ⟨i, t, c⟩ ∧
    (read_single_note true true
        { (update_note true s i t c).2 with
          cache := fdel (update_note true s i t c).2.cache i } i).1 =
      Except.ok ⟨i, t, c⟩ := by
  rw [update_note_eq s i t c r hs]
  have hcache : fset s.cache i ⟨i, t, c⟩ i = some ⟨i, t, c⟩ := by
    rw [fset_apply, if_pos rfl]
  have hstore : fset s.store i ⟨t, c⟩ i = some ⟨t, c⟩ := by
    rw [fset_apply, if_pos rfl]
  have hdel : fdel (fset s.cache i ⟨i, t, c⟩) i i = none := by
    rw [fdel_apply, if_pos rfl]
  refine ⟨rfl, ?_, ?_⟩
  · rw [read_hit_eq _ i ⟨i, t, c⟩ hcache]
  · rw [read_fill_eq _ i ⟨t, c⟩ hdel hstore]

/-- Witness for the update-then-read theorem on the one-note state. -/
theorem update_then_read_witness :
    oneNoteSt.store 1 = some ⟨"a", true⟩ ∧
    ((update_note true oneNoteSt 1 "b" false).1 =
        Except.ok ⟨1, "b", false⟩ ∧
     (read_single_note true true (update_note true oneNoteSt 1 "b" false).2
        1).1 = Except.ok ⟨1, "b", false⟩ ∧
     (read_single_note true true
        { (update_note true oneNoteSt 1 "b" false).2 with
          cache := fdel (update_note true oneNoteSt 1 "b" false).2.cache 1 }
        1).1 = Except.ok ⟨1, "b", false⟩) :=
  ⟨rfl, update_then_read oneNoteSt 1 ⟨"a", true⟩ "b" false rfl⟩

/-- C7: a token just issued for a user validates before its expiry and
carries that user as subject, and validation rejects with the 401
invalid-token failure any token whose expiry lies in the past, whose
signature does not verify under the configured secret, or which is
malformed. -/
theorem token_validate_issue (key u raw k2 : String) (now now2 : Int)
    (d : Option Int) (c p : Claims) (e : Int)
    (hfresh : now2 ≤ now + d.getD (15 * 60))
    (hexp : c.exp = some e) (hpast : e < now2) (hk : k2 ≠ key) :
    decode_access_token key now2
        (create_access_token key now ⟨some u, none, []⟩ d) =
      Except.ok ⟨some u, some (now + d.getD (15 * 60)), []⟩ ∧
    decode_access_token key now2 (jwtEncode key c) =
      Except.error AuthErr.invalidToken ∧
    decode_access_token key now2 (Token.signed p k2 p) =
      Except.error AuthErr.invalidToken ∧
    decode_access_token key now2 (Token.malformed raw) =
      Except.error AuthErr.invalidToken := by
  have h1 : jwtDecode key now2
      (create_access_token key now ⟨some u, none, []⟩ d) =
      some ⟨some u, some (now + d.getD (15 * 60)), []⟩ := by
    simp only [create_access_token, jwtEncode, jwtDecode]
    rw [if_neg (not_lt.mpr hfresh)]
    simp
  have h2 : jwtDecode key now2 (jwtEncode key c) = none := by
    obtain ⟨csub, cexp, cextra⟩ := c
    have hce : cexp = some e := hexp
    subst hce
    simp only [jwtEncode, jwtDecode]
    rw [if_pos hpast]
    simp
  have h3 : jwtDecode key now2 (Token.signed p k2 p) = none := by
    simp only [jwtDecode]
    rw [if_neg (fun hcon => hk hcon.1)]
  refine ⟨?_, ?_, ?_, rfl⟩
  · simp only [decode_access_token, h1]
  · simp only [decode_access_token, h2]
  · simp only [decode_access_token, h3]

/-- Witness for the token round-trip and rejection theorem at concrete
inputs: a fresh 30-minute token for alice, an expired token, a token
signed with the wrong key, and a malformed string. -/
theorem token_validate_issue_witness :
    ((0 : Int) ≤ 0 + (some (1800 : Int)).getD (15 * 60) ∧
     (-5 : Int) < 0 ∧ ("bad" : String) ≠ "k") ∧
    (decode_access_token "k" 0
        (create_access_token "k" 0 ⟨some "alice", none, []⟩ (some 1800)) =
      Except.ok ⟨some "alice", some 1800, []⟩ ∧
     decode_access_token "k" 0 (jwtEncode "k" ⟨none, some (-5), []⟩) =
      Except.error AuthErr.invalidToken ∧
     decode_access_token "k" 0
        (Token.signed ⟨none, none, []⟩ "bad" ⟨none, none, []⟩) =
      Except.error AuthErr.invalidToken ∧
     decode_access_token "k" 0 (Token.malformed "zzz") =
      Except.error AuthErr.invalidToken) :=
  ⟨⟨by decide, by decide, by decide⟩,
   token_validate_issue "k" "alice" "zzz" "bad" 0 0 (some 1800)
     ⟨none, some (-5), []⟩ ⟨none, none, []⟩ (-5)
     (by decide) rfl (by decide) (by decide)⟩

/-- C8 evaluated on the code: with the environment variable unset, login
issues a token whose expiry is the default 30 minutes (1800 seconds)
after issuance; but with ANY configured value, `os.environ.get` yields a
string that reaches `timedelta(minutes=...)` unconverted, so login raises
`TypeError` instead of issuing a token. -/
theorem configured_expiry_type_error (s u pw key hash : String) (now : Int) :
    login (fun _ => some hash) (fun _ _ => true) key none now u pw =
      Except.ok
        ⟨create_access_token key now ⟨some u, none, []⟩ (some 1800),
         "bearer"⟩ ∧
    login (fun _ => some hash) (fun _ _ => true) key (some s) now u pw =
      Except.error (Sum.inr PyErr.typeError) :=
  ⟨rfl, rfl⟩

/-- C9: the login credential check fails identically for an unknown
username and for a known username with a wrong password: both produce
`HTTPException(400, "Incorrect username or password")`, so a caller
cannot distinguish no-such-user from wrong-password. -/
theorem login_enumeration_resistance (db : String → Option String)
    (verify : String → String → Bool) (key : String) (env : Option String)
    (now : Int) (u1 p1 u2 p2 hash : String)
    (h1 : db u1 = none) (h2 : db u2 = some hash)
    (h3 : verify p2 hash = false) :
    login db verify key env now u1 p1 =
      Except.error (Sum.inl ⟨400, "Incorrect username or password"⟩) ∧
    login db verify key env now u2 p2 =
      login db verify key env now u1 p1 := by
  have e1 : login db verify key env now u1 p1 =
      Except.error (Sum.inl ⟨400, "Incorrect username or password"⟩) := by
    simp only [login, h1]
  have e2 : login db verify key env now u2 p2 =
      Except.error (Sum.inl ⟨400, "Incorrect username or password"⟩) := by
    simp only [login, h2, h3]
    rfl
  exact ⟨e1, e2.trans e1.symm⟩

/-- Credential table holding exactly one user, for witnesses. -/
def usersDb : String → Option String :=
  fun x => if x = "realuser" then some "h1" else none

/-- Witness for the enumeration-resistance theorem with a one-user table
and a bcrypt verifier that rejects the presented password. -/
theorem login_enumeration_resistance_witness :
    (usersDb "nouser" = none ∧ usersDb "realuser" = some "h1" ∧
     (fun _ _ : String => false) "wrongpass" "h1" = false) ∧
    (login usersDb (fun _ _ => false) "k" none 0 "nouser" "anything" =
       Except.error (Sum.inl ⟨400, "Incorrect username or password"⟩) ∧
     login usersDb (fun _ _ => false) "k" none 0 "realuser" "wrongpass" =
       login usersDb (fun _ _ => false) "k" none 0 "nouser" "anything") :=
  ⟨⟨by decide, by decide, rfl⟩,
   login_enumeration_resistance usersDb (fun _ _ => false) "k" none 0
     "nouser" "anything" "realuser" "wrongpass" "h1"
     (by decide) (by decide) rfl⟩

/-- C10: a token whose signature verifies under the configured secret and
whose expiry has not passed decodes successfully to its entire claim
payload; no check that a subject claim is present is performed, so
decoding succeeds even when `sub` is absent. -/
theorem decode_returns_full_payload (key : String) (now : Int) (c : Claims)
    (hexp : ∀ e, c.exp = some e → ¬ e < now) :
    decode_access_token key now (jwtEncode key c) = Except.ok c := by
  obtain ⟨csub, cexp, cextra⟩ := c
  cases cexp with
  | none => simp [decode_access_token, jwtEncode, jwtDecode]
  | some e =>
    have he : ¬ e < now := hexp e rfl
    simp [decode_access_token, jwtEncode, jwtDecode, he]

/-- Witness for the full-payload decoding theorem: a valid unexpiring
token carrying no `sub` claim, only an unregistered claim, decodes to
exactly that payload. -/
theorem decode_returns_full_payload_witness :
    (∀ e : Int, (Claims.mk none none [("role", "admin")]).exp = some e →
      ¬ e < 0) ∧
    decode_access_token "k" 0
        (jwtEncode "k" ⟨none, none, [("role", "admin")]⟩) =
      Except.ok ⟨none, none, [("role", "admin")]⟩ :=
  ⟨fun _e h => Option.noConfusion h,
   decode_returns_full_payload "k" 0 ⟨none, none, [("role", "admin")]⟩
     (fun _e h => Option.noConfusion h)⟩

end FastApiCrud
